import Mathlib

/-!
Verification of the ingestion / admission-control / publish pipeline of the
AI news bot (FastAPI + SQLite).  The Python sources are shallowly embedded:
the SQLite `news` table becomes a list of rows, each `async` database helper
becomes a pure function on that list, and the external collaborators
(translator, Telegram publisher, Playwright page fetches) become function
parameters or `Except` values, since each of them is fully caught at its
call boundary in the source.
-/

namespace NewsBot

/-- A row of the SQLite `news` table (database.py, `init_db`).
`date` abstracts the ISO timestamp `datetime.now().isoformat()` as a natural
number: the source orders rows lexicographically on the ISO text, which is
chronological order, so any linearly ordered stamp models it. -/
structure NewsRow where
  id : Nat
  date : Nat
  title : String
  summary_ru : String
  source_url : String
  source_name : String
  sent_to_telegram : Bool
deriving DecidableEq, Repr

/-- The database state: the list of rows of the `news` table, in insertion
order. -/
abbrev Store := List NewsRow

/-- A scraped candidate item (scraper.py, `NewsItem`). -/
structure NewsItem where
  title : String
  summary : String
  url : String
  source : String
deriving DecidableEq, Repr

/-- The next AUTOINCREMENT id: strictly larger than every id in the store. -/
def freshId (s : Store) : Nat :=
  (s.foldl (fun m r => max m r.id) 0) + 1

/-- database.py `check_if_exists`: `SELECT 1 FROM news WHERE title = ?`. -/
def check_if_exists (s : Store) (title : String) : Bool :=
  s.any (fun r => r.title == title)

/-- database.py `add_news`: INSERT of a new row; the UNIQUE constraint on
`title` makes the insert raise `IntegrityError` (returning `False`) exactly
when a row with the same title already exists.  `now` is the timestamp the
source takes from `datetime.now()` at the moment of the call. -/
def add_news (now : Nat) (s : Store) (title summary_ru source_url source_name : String) :
    Store × Bool :=
  if s.any (fun r => r.title == title) then
    (s, false)
  else
    (s ++ [{ id := freshId s, date := now, title := title, summary_ru := summary_ru,
             source_url := source_url, source_name := source_name,
             sent_to_telegram := false }], true)

/-- One step of selecting the row of maximal `date`: keep the later-dated
of the accumulator and the next row. -/
def pickNewer (acc : Option NewsRow) (r : NewsRow) : Option NewsRow :=
  match acc with
  | none => some r
  | some b => if b.date < r.date then some r else some b

/-- database.py `get_unsent_news`:
`SELECT * FROM news WHERE sent_to_telegram = 0 ORDER BY date DESC LIMIT 1` —
a row of maximal `date` among the unsent rows (or none). -/
def get_unsent_news (s : Store) : Option NewsRow :=
  (s.filter (fun r => r.sent_to_telegram = false)).foldl pickNewer none

/-- database.py `mark_as_sent`:
`UPDATE news SET sent_to_telegram = 1 WHERE id = ?`. -/
def mark_as_sent (s : Store) (news_id : Nat) : Store :=
  s.map (fun r => if r.id = news_id then { r with sent_to_telegram := true } else r)

/-- database.py `get_news_count`: `SELECT COUNT(*) FROM news`. -/
def get_news_count (s : Store) : Nat := s.length

/-- database.py `get_pending_count`:
`SELECT COUNT(*) FROM news WHERE sent_to_telegram = 0`. -/
def get_pending_count (s : Store) : Nat :=
  (s.filter (fun r => r.sent_to_telegram = false)).length

/-- The `parse_stats` triple kept in `last_auto_parse_stats` (main.py). -/
structure ParseStats where
  found : Nat
  added : Nat
  duplicates : Nat
deriving DecidableEq, Repr

/-!
## Admission control

`api_parse_news` (manual mode) and the body of `auto_send_loop` (exhaustive
mode) each process the scraped candidate list against the store.  We embed
one loop-body step of each mode as a function and the loop as its fold.
The translator `translate_to_russian` always returns some text (it catches
every exception and falls back to the input), so it is a total parameter
`tr : String → String`.  Each step also reports, as observable outputs,
whether the translator was invoked and whether an insert was attempted and
with which outcome — these record which source lines executed and do not
feed back into the state.
-/

/-- Outcome of one manual-mode loop iteration (main.py lines 98-114). -/
structure ManualStepOut where
  store : Store
  added : Nat
  insertResult : Option Bool
  translated : Bool
deriving DecidableEq, Repr

/-- One iteration of the `for item in news_items` loop of `api_parse_news`
(main.py lines 98-114): once `added_count >= max_to_add` the loop breaks, so
the remaining candidates leave every observable unchanged; otherwise the
summary is translated and `add_news` attempted, and `added_count` grows only
when `add_news` returned `True`. -/
def manualStep (tr : String → String) (now : Nat) (s : Store) (maxToAdd added : Nat)
    (it : NewsItem) : ManualStepOut :=
  if maxToAdd ≤ added then
    { store := s, added := added, insertResult := none, translated := false }
  else
    let translated_summary := tr it.summary
    let res := add_news now s it.title translated_summary it.url it.source
    { store := res.1, added := if res.2 then added + 1 else added,
      insertResult := some res.2, translated := true }

/-- Outcome of one exhaustive-mode loop iteration (main.py lines 192-210). -/
structure AutoStepOut where
  store : Store
  added : Nat
  dups : Nat
  insertResult : Option Bool
  translated : Bool
  skippedCap : Bool
deriving DecidableEq, Repr

/-- One iteration of the `for item in news_items` loop in `auto_send_loop`
(main.py lines 192-210).  The store is read twice: `sChk` is its state at
the `check_if_exists` call and `sIns` its state at the `add_news` call; a
concurrent writer may have inserted rows in between, so the two are separate
parameters (the sequential runs below pass the same store twice).  Note the
source discards the return value of `add_news` and increments `added`
unconditionally. -/
def autoStep (tr : String → String) (now : Nat) (sChk sIns : Store) (needed added dups : Nat)
    (it : NewsItem) : AutoStepOut :=
  if check_if_exists sChk it.title then
    { store := sIns, added := added, dups := dups + 1, insertResult := none,
      translated := false, skippedCap := false }
  else if added < needed then
    let translated_summary := tr it.summary
    let res := add_news now sIns it.title translated_summary it.url it.source
    { store := res.1, added := added + 1, dups := dups, insertResult := some res.2,
      translated := true, skippedCap := false }
  else
    { store := sIns, added := added, dups := dups, insertResult := none,
      translated := false, skippedCap := true }

/-- The manual-mode admission loop of `api_parse_news` (sequential: no
concurrent writer), returning the final store and `added_count`.  The clock
`now` advances between iterations, as `datetime.now()` does. -/
def manualLoop (tr : String → String) :
    List NewsItem → Nat → Store → Nat → Nat → Store × Nat
  | [], _, s, added, _ => (s, added)
  | it :: rest, now, s, added, maxToAdd =>
    let o := manualStep tr now s maxToAdd added it
    manualLoop tr rest (now + 1) o.store o.added maxToAdd

/-- Result of the exhaustive admission pass: final store, `added`,
`duplicates`, and the count of novel candidates examined after capacity was
reached (the source's explicit skip branch, main.py lines 209-210). -/
structure AdmitOut where
  store : Store
  added : Nat
  dups : Nat
  skipped : Nat
deriving DecidableEq, Repr

/-- The exhaustive-mode admission loop of `auto_send_loop` (sequential: no
concurrent writer, so each `autoStep` checks and inserts against the same
store). -/
def autoLoop (tr : String → String) :
    List NewsItem → Nat → Store → Nat → Nat → Nat → Nat → AdmitOut
  | [], _, s, _, added, dups, skipped =>
    { store := s, added := added, dups := dups, skipped := skipped }
  | it :: rest, now, s, needed, added, dups, skipped =>
    let o := autoStep tr now s s needed added dups it
    autoLoop tr rest (now + 1) o.store needed o.added o.dups
      (cond o.skippedCap (skipped + 1) skipped)

/-- The whole exhaustive admission pass starting from zero counters. -/
def auto_admission (tr : String → String) (now : Nat) (items : List NewsItem)
    (needed : Nat) (s : Store) : AdmitOut :=
  autoLoop tr items now s needed 0 0 0

/-- `api_parse_news` (main.py lines 73-134), restricted to its state and
statistics: reads the pending count, computes `max_to_add = max(0, 10 -
pending)` (truncated `Nat` subtraction), returns unchanged with zero
statistics on either early return (capacity 0, or no items scraped — those
paths answer `added = 0` and leave `last_auto_parse_stats` untouched), and
otherwise runs the manual loop and records
`{found := len(items), added, duplicates := len(items) - added}`. -/
def api_parse_news (tr : String → String) (now : Nat) (items : List NewsItem)
    (s : Store) : Store × ParseStats :=
  let pending := get_pending_count s
  let maxToAdd := 10 - pending
  if maxToAdd = 0 then
    (s, { found := 0, added := 0, duplicates := 0 })
  else if items.isEmpty then
    (s, { found := 0, added := 0, duplicates := 0 })
  else
    let res := manualLoop tr items now s 0 maxToAdd
    (res.1, { found := items.length, added := res.2,
              duplicates := items.length - res.2 })

/-!
## Orchestrator (scraper.py)

Each adapter wraps its whole body in `try/except Exception`: any raised
error (navigation failure, selector timeout, …) reaches the handler and the
adapter returns `([], False)`; a body that runs to completion returns
`(news_items, True)`, where `news_items` may be empty.  We embed
`scrape_techcrunch` concretely over the data its Playwright calls yield, and
the other two adapters (whose bodies have the identical skeleton) through
the outcome of their `try` body.
-/

/-- What the per-article extraction inside `scrape_techcrunch` sees for one
article element: `none` when no title element matches the selectors
(`h2.wp-block-post-title a, ...`), otherwise the title's `inner_text` and
its optional `href` attribute.  A per-article exception is caught by the
inner `except: continue`, which coincides with the `none` case. -/
def RawArticle : Type := Option (String × Option String)

/-- scraper.py `make_absolute_url`; `urljoin` is the external library call,
passed in as `join`. -/
def make_absolute_url (join : String → String → String) (url base : String) : String :=
  if url = "" then ""
  else if url.startsWith "http" then url
  else join base url

/-- scraper.py `scrape_techcrunch` (lines 73-142): `pageLoad` is the outcome
of the `try` body up to `query_selector_all` — `Except.error` when any of
the page calls raises (caught at line 136, returning `([], False)`), else
the list of article elements.  `content` stands for `get_article_content`,
which catches all of its own exceptions and returns a string (possibly
empty).  On normal completion the adapter reports `True` even when it
extracted no items. -/
def scrape_techcrunch (join : String → String → String) (content : String → String)
    (pageLoad : Except Unit (List RawArticle)) : List NewsItem × Bool :=
  match pageLoad with
  | Except.error _ => ([], false)
  | Except.ok articles =>
    let article_data : List (String × String) :=
      (articles.take 20).filterMap (fun a =>
        match a with
        | none => none
        | some (t, u) =>
          match u with
          | none => none
          | some u =>
            if t ≠ "" ∧ u ≠ "" then
              some (t.trim, make_absolute_url join u "https://techcrunch.com")
            else none)
    let news_items : List NewsItem :=
      (article_data.take 20).map (fun p =>
        let summary := content p.2
        { title := p.1, summary := if summary = "" then p.1 else summary,
          url := p.2, source := "TechCrunch" })
    (news_items, true)

/-- Per-source statistics entry built by `scrape_all_sources`. -/
structure SourceStat where
  count : Nat
  status : String
deriving DecidableEq, Repr

/-- The aggregate returned by `scrape_all_sources`. -/
structure ScrapeResult where
  items : List NewsItem
  sources : List (String × SourceStat)
deriving DecidableEq, Repr

/-- The statistics entry `scrape_all_sources` records for one adapter's
result `(items, online)`. -/
def sourceStatOf (r : List NewsItem × Bool) : SourceStat :=
  { count := r.1.length, status := if r.2 then "online" else "offline" }

/-- scraper.py `scrape_all_sources` (lines 284-332): runs the three
adapters sequentially — each given here by its `(items, online)` result,
since every adapter catches its own failures — and aggregates all items in
discovery order with a per-source status map. -/
def scrape_all_sources (tc tv vb : List NewsItem × Bool) : ScrapeResult :=
  { items := tc.1 ++ tv.1 ++ vb.1,
    sources := [("TechCrunch", sourceStatOf tc),
                ("The Verge", sourceStatOf tv),
                ("VentureBeat", sourceStatOf vb)] }

/-!
## Publish operation and scheduler (main.py)
-/

/-- `api_send_telegram` (main.py lines 137-162).  `pub` is
`send_news_to_telegram`, an external call returning `(success, message)`;
it never raises past its boundary.  The result records the new store, the
row handed to the publisher (if any), and whether the send succeeded. -/
def api_send_telegram (pub : NewsRow → Bool × String) (s : Store) :
    Store × Option NewsRow × Bool :=
  match get_unsent_news s with
  | none => (s, none, false)
  | some news =>
    let res := pub news
    if res.1 then (mark_as_sent s news.id, some news, true)
    else (s, some news, false)

/-- One pass of the `while auto_send_running` body of `auto_send_loop`
(main.py lines 169-222), up to the 30-second sleep.  `scrape` is the
outcome of `scrape_all_sources` — `Except.error` when it (or anything else
inside the `try`) raises, in which case the handler logs and leaves state
and statistics untouched.  The returned flag records whether the
orchestration branch (`pending_count < 10`) ran at all. -/
def auto_send_iteration (tr : String → String) (now : Nat)
    (scrape : Except Unit ScrapeResult) (s : Store) (prev : ParseStats) :
    Store × ParseStats × Bool :=
  let pending := get_pending_count s
  if pending < 10 then
    let needed := 10 - pending
    match scrape with
    | Except.error _ => (s, prev, true)
    | Except.ok res =>
      let out := auto_admission tr now res.items needed s
      (out.store, { found := res.items.length, added := out.added,
                    duplicates := out.dups }, true)
  else
    (s, prev, false)

/-- The scheduler's process-wide state: the `auto_send_running` flag, the
task handle, and — as an observable — the number of `asyncio.create_task`
calls made so far. -/
structure SchedState where
  running : Bool
  task : Option Nat
  spawnCount : Nat
deriving DecidableEq, Repr

/-- Responses of the two scheduler endpoints, abstracting the JSON bodies. -/
inductive SchedResp where
  | startedOk
  | alreadyRunning
  | emptyStoreError
  | stoppedOk
  | notRunning
deriving DecidableEq, Repr

/-- `api_start_auto_send` (main.py lines 225-244): no-op report when
already running; HTTP 400 without touching the state when the store is
empty; otherwise sets `running`, spawns the loop task and reports started. -/
def api_start_auto_send (s : Store) (st : SchedState) : SchedState × SchedResp :=
  if st.running then (st, SchedResp.alreadyRunning)
  else if get_news_count s = 0 then (st, SchedResp.emptyStoreError)
  else ({ running := true, task := some st.spawnCount,
          spawnCount := st.spawnCount + 1 }, SchedResp.startedOk)

/-- `api_stop_auto_send` (main.py lines 247-260): no-op report when not
running; otherwise clears the flag and cancels and drops the task. -/
def api_stop_auto_send (st : SchedState) : SchedState × SchedResp :=
  if st.running = false then (st, SchedResp.notRunning)
  else ({ running := false, task := none, spawnCount := st.spawnCount },
        SchedResp.stoppedOk)

/-!
## Sequences of repository operations

For invariant claims we close the mutating operations of the pipeline under
sequencing: admission inserts (`add_news`), `mark_as_sent`, and the publish
endpoint.  (`clear_all_news` deletes rows wholesale and is a separate wipe
endpoint, not part of the admission/publish pipeline.)
-/

/-- The arguments of one `add_news` call. -/
structure AddReq where
  now : Nat
  title : String
  summary_ru : String
  source_url : String
  source_name : String
deriving DecidableEq, Repr

/-- Run a sequence of `add_news` calls left to right. -/
def applyAdds : List AddReq → Store → Store
  | [], s => s
  | q :: rest, s =>
    applyAdds rest (add_news q.now s q.title q.summary_ru q.source_url q.source_name).1

/-- A mutating repository operation of the pipeline. -/
inductive RepoOp where
  | add (now : Nat) (title summary_ru source_url source_name : String)
  | markSent (news_id : Nat)
  | publish (pub : NewsRow → Bool × String)

/-- Apply one repository operation to the store. -/
def applyOp : RepoOp → Store → Store
  | RepoOp.add now t su u n, s => (add_news now s t su u n).1
  | RepoOp.markSent i, s => mark_as_sent s i
  | RepoOp.publish pub, s => (api_send_telegram pub s).1

/-- Apply a sequence of repository operations left to right. -/
def applyOps : List RepoOp → Store → Store
  | [], s => s
  | op :: rest, s => applyOps rest (applyOp op s)

/-- No two rows of the store share a title. -/
def titlesNodup (s : Store) : Prop := (s.map (fun r => r.title)).Nodup

instance (s : Store) : Decidable (titlesNodup s) := by
  unfold titlesNodup; infer_instance

/-- Row `i` exists in the store and every row with that id is marked sent. -/
def idSent (s : Store) (i : Nat) : Prop :=
  (∃ r ∈ s, r.id = i) ∧ ∀ r ∈ s, r.id = i → r.sent_to_telegram = true

instance (s : Store) (i : Nat) : Decidable (idSent s i) := by
  unfold idSent; infer_instance

/-!
## Concrete fixtures used by counterexamples and witnesses
-/

/-- A stored row with title "T". -/
def rowT : NewsRow :=
  { id := 1, date := 0, title := "T", summary_ru := "s", source_url := "u",
    source_name := "n", sent_to_telegram := false }

/-- A candidate item with the same title "T". -/
def itemT : NewsItem := { title := "T", summary := "sum", url := "u2", source := "src" }

/-- An unsent row with date 0 (the oldest in `storeAB`). -/
def rowA : NewsRow :=
  { id := 1, date := 0, title := "A", summary_ru := "a", source_url := "ua",
    source_name := "n", sent_to_telegram := false }

/-- An unsent row with date 1 (the newest in `storeAB`). -/
def rowB : NewsRow :=
  { id := 2, date := 1, title := "B", summary_ru := "b", source_url := "ub",
    source_name := "n", sent_to_telegram := false }

/-- A store with two unsent rows of distinct dates. -/
def storeAB : Store := [rowA, rowB]

/-- A publisher whose send always fails. -/
def pubFail : NewsRow → Bool × String := fun _ => (false, "err")

/-- A publisher whose send always succeeds. -/
def pubOk : NewsRow → Bool × String := fun _ => (true, "ok")

/-- A trivial stand-in for `urljoin`. -/
def joinEx : String → String → String := fun base u => base ++ u

/-- A stand-in for `get_article_content` that finds no text. -/
def contentEx : String → String := fun _ => ""

/-- An article element in which no title selector matched
(`title_elem` is `None`): content the adapter cannot use. -/
def noTitleArticle : RawArticle := none

/-- A store holding ten unsent rows (pending count 10). -/
def store10 : Store :=
  (List.range 10).map (fun k =>
    { id := k + 1, date := k, title := toString k, summary_ru := "s",
      source_url := "u", source_name := "n", sent_to_telegram := false })

/-- A row whose `sent_to_telegram` flag is already set. -/
def rowSent : NewsRow :=
  { id := 1, date := 0, title := "S", summary_ru := "s", source_url := "u",
    source_name := "n", sent_to_telegram := true }

/-!
## Helper lemmas
-/

lemma setSent_self (r : NewsRow) (h : r.sent_to_telegram = true) :
    { r with sent_to_telegram := true } = r := by
  cases r with
  | mk i d t su u n g => subst h; rfl

lemma mark_as_sent_sets (s : Store) (i : Nat) :
    ∀ r ∈ mark_as_sent s i, r.id = i → r.sent_to_telegram = true := by
  intro r hr hid
  unfold mark_as_sent at hr
  rcases List.mem_map.mp hr with ⟨r₀, hr₀, rfl⟩
  by_cases h : r₀.id = i
  · simp [h]
  · rw [if_neg h] at hid
    exact absurd hid h

lemma mark_as_sent_eq_self (s : Store) (i : Nat)
    (h : ∀ r ∈ s, r.id = i → r.sent_to_telegram = true) : mark_as_sent s i = s := by
  unfold mark_as_sent
  conv_rhs => rw [← List.map_id s]
  apply List.map_congr_left
  intro r hr
  by_cases hid : r.id = i
  · simp only [id]
    rw [if_pos hid]
    exact setSent_self r (h r hr hid)
  · simp [hid]

/-!
## Claims
-/

/-- Claim C10: `mark_as_sent` is idempotent — marking twice equals marking
once; it is the identity on a store whose rows with the given id are already
sent, and on a store that holds no row with that id. -/
theorem C10_mark_as_sent_idempotent (s : Store) (i : Nat) :
    mark_as_sent (mark_as_sent s i) i = mark_as_sent s i
    ∧ ((∀ r ∈ s, r.id = i → r.sent_to_telegram = true) → mark_as_sent s i = s)
    ∧ ((∀ r ∈ s, r.id ≠ i) → mark_as_sent s i = s) :=
  ⟨mark_as_sent_eq_self (mark_as_sent s i) i (mark_as_sent_sets s i),
   mark_as_sent_eq_self s i,
   fun h => mark_as_sent_eq_self s i (fun r hr hid => absurd hid (h r hr))⟩

/-- Witness for C10 at concrete stores: an already-sent row and an absent
id. -/
theorem C10_witness :
    mark_as_sent (mark_as_sent [rowSent] 1) 1 = mark_as_sent [rowSent] 1
    ∧ mark_as_sent [rowSent] 1 = [rowSent]
    ∧ mark_as_sent [rowSent] 2 = [rowSent] :=
  ⟨(C10_mark_as_sent_idempotent [rowSent] 1).1,
   (C10_mark_as_sent_idempotent [rowSent] 1).2.1 (by decide),
   (C10_mark_as_sent_idempotent [rowSent] 2).2.2 (by decide)⟩

/-- Claim C8: starting the scheduler while it runs is a report-only no-op
(state unchanged, hence no second task is spawned and exactly one loop
remains); stopping while not running is a no-op; starting on an empty store
answers with an error and neither sets `running` nor spawns the loop. -/
theorem C8_scheduler_guards (s : Store) (st : SchedState) :
    (st.running = true → api_start_auto_send s st = (st, SchedResp.alreadyRunning))
    ∧ (st.running = false → api_stop_auto_send st = (st, SchedResp.notRunning))
    ∧ (st.running = false → get_news_count s = 0 →
        api_start_auto_send s st = (st, SchedResp.emptyStoreError)) := by
  refine ⟨?_, ?_, ?_⟩
  · intro h
    simp [api_start_auto_send, h]
  · intro h
    simp [api_stop_auto_send, h]
  · intro h h0
    simp [api_start_auto_send, h, h0]

/-- Witness for C8 at concrete scheduler states and the empty store. -/
theorem C8_witness :
    api_start_auto_send [] { running := true, task := some 0, spawnCount := 1 }
      = ({ running := true, task := some 0, spawnCount := 1 }, SchedResp.alreadyRunning)
    ∧ api_stop_auto_send { running := false, task := none, spawnCount := 0 }
      = ({ running := false, task := none, spawnCount := 0 }, SchedResp.notRunning)
    ∧ api_start_auto_send [] { running := false, task := none, spawnCount := 0 }
      = ({ running := false, task := none, spawnCount := 0 }, SchedResp.emptyStoreError) :=
  ⟨(C8_scheduler_guards [] { running := true, task := some 0, spawnCount := 1 }).1 rfl,
   (C8_scheduler_guards [] { running := false, task := none, spawnCount := 0 }).2.1 rfl,
   (C8_scheduler_guards [] { running := false, task := none, spawnCount := 0 }).2.2 rfl rfl⟩

/-- Claim C9: a scheduler iteration that reads a pending count of at least
10 skips orchestration and admission entirely — state and statistics are
unchanged and the orchestration branch did not run. -/
theorem C9_scheduler_skips_at_capacity (tr : String → String) (now : Nat)
    (scrape : Except Unit ScrapeResult) (s : Store) (prev : ParseStats)
    (h : 10 ≤ get_pending_count s) :
    auto_send_iteration tr now scrape s prev = (s, prev, false) := by
  unfold auto_send_iteration
  have h' : ¬ get_pending_count s < 10 := by omega
  simp [h']

/-- Witness for C9 at a concrete store holding ten unsent rows. -/
theorem C9_witness :
    10 ≤ get_pending_count store10
    ∧ auto_send_iteration (fun t => t) 0 (Except.ok { items := [], sources := [] })
        store10 { found := 0, added := 0, duplicates := 0 }
      = (store10, { found := 0, added := 0, duplicates := 0 }, false) :=
  ⟨by decide,
   C9_scheduler_skips_at_capacity (fun t => t) 0
     (Except.ok { items := [], sources := [] }) store10
     { found := 0, added := 0, duplicates := 0 } (by decide)⟩

lemma manualStep_added_le (tr : String → String) (now : Nat) (s : Store)
    (m a : Nat) (it : NewsItem) (h : a ≤ m) :
    (manualStep tr now s m a it).added ≤ m := by
  unfold manualStep
  split
  · simpa using h
  · next hc =>
    simp only
    split
    · omega
    · exact h

lemma manualStep_added_le_succ (tr : String → String) (now : Nat) (s : Store)
    (m a : Nat) (it : NewsItem) :
    (manualStep tr now s m a it).added ≤ a + 1 := by
  unfold manualStep
  split
  · simp
  · simp only
    split
    · omega
    · omega

lemma manualLoop_added_le (tr : String → String) (items : List NewsItem) :
    ∀ now s a m, a ≤ m → (manualLoop tr items now s a m).2 ≤ m := by
  induction items with
  | nil =>
    intro now s a m h
    simpa [manualLoop] using h
  | cons it rest ih =>
    intro now s a m h
    simp only [manualLoop]
    exact ih _ _ _ _ (manualStep_added_le tr now s m a it h)

lemma manualLoop_added_le_len (tr : String → String) (items : List NewsItem) :
    ∀ now s a m, (manualLoop tr items now s a m).2 ≤ a + items.length := by
  induction items with
  | nil =>
    intro now s a m
    simp [manualLoop]
  | cons it rest ih =>
    intro now s a m
    simp only [manualLoop]
    have h1 := manualStep_added_le_succ tr now s m a it
    have h2 := ih (now + 1) (manualStep tr now s m a it).store
      (manualStep tr now s m a it).added m
    simp only [List.length_cons]
    omega

lemma autoLoop_counts (tr : String → String) (items : List NewsItem) :
    ∀ now s needed a d k,
      (autoLoop tr items now s needed a d k).added
        + (autoLoop tr items now s needed a d k).dups
        + (autoLoop tr items now s needed a d k).skipped
      = a + d + k + items.length := by
  induction items with
  | nil =>
    intro now s needed a d k
    simp [autoLoop]
  | cons it rest ih =>
    intro now s needed a d k
    by_cases hc : check_if_exists s it.title
    · simp only [autoLoop, autoStep, if_pos hc, Bool.cond_false]
      rw [ih]
      simp only [List.length_cons]
      omega
    · by_cases ha : a < needed
      · simp only [autoLoop, autoStep, if_neg hc, if_pos ha, Bool.cond_false]
        rw [ih]
        simp only [List.length_cons]
        omega
      · simp only [autoLoop, autoStep, if_neg hc, if_neg ha, Bool.cond_true]
        rw [ih]
        simp only [List.length_cons]
        omega

lemma autoLoop_added_le (tr : String → String) (items : List NewsItem) :
    ∀ now s needed a d k, a ≤ needed →
      (autoLoop tr items now s needed a d k).added ≤ needed := by
  induction items with
  | nil =>
    intro now s needed a d k h
    simpa [autoLoop] using h
  | cons it rest ih =>
    intro now s needed a d k h
    by_cases hc : check_if_exists s it.title
    · simp only [autoLoop, autoStep, if_pos hc]
      exact ih _ _ _ _ _ _ h
    · by_cases ha : a < needed
      · simp only [autoLoop, autoStep, if_neg hc, if_pos ha]
        exact ih _ _ _ _ _ _ ha
      · simp only [autoLoop, autoStep, if_neg hc, if_neg ha]
        exact ih _ _ _ _ _ _ h

/-- Claim C1: in both admission modes the resulting statistics balance and
respect capacity.  Manual mode (`api_parse_news`): the loop breaks before
examining any further candidate once capacity is reached, so
`skippedDueToCapacity = 0` there and `found = added + duplicates` with
`added ≤ max(0, 10 - pending)` (truncated `Nat` subtraction).  Exhaustive
mode (`auto_admission` with `capacity = needed`): every candidate is
examined and `found = added + duplicates + skippedDueToCapacity` with
`added ≤ needed`. -/
theorem C1_admission_stats (tr : String → String) (now : Nat) (items : List NewsItem)
    (s : Store) (needed : Nat) :
    ((api_parse_news tr now items s).2.found
        = (api_parse_news tr now items s).2.added
          + (api_parse_news tr now items s).2.duplicates
      ∧ (api_parse_news tr now items s).2.added ≤ 10 - get_pending_count s)
    ∧ (items.length
        = (auto_admission tr now items needed s).added
          + (auto_admission tr now items needed s).dups
          + (auto_admission tr now items needed s).skipped
      ∧ (auto_admission tr now items needed s).added ≤ needed) := by
  constructor
  · unfold api_parse_news
    by_cases h0 : 10 - get_pending_count s = 0
    · rw [if_pos h0]
      exact ⟨rfl, Nat.zero_le _⟩
    · rw [if_neg h0]
      by_cases hi : items.isEmpty = true
      · rw [if_pos hi]
        exact ⟨rfl, Nat.zero_le _⟩
      · rw [if_neg hi]
        constructor
        · show items.length
            = (manualLoop tr items now s 0 (10 - get_pending_count s)).2
              + (items.length - (manualLoop tr items now s 0 (10 - get_pending_count s)).2)
          have hlen := manualLoop_added_le_len tr items now s 0 (10 - get_pending_count s)
          omega
        · show (manualLoop tr items now s 0 (10 - get_pending_count s)).2
            ≤ 10 - get_pending_count s
          exact manualLoop_added_le tr items now s 0 _ (Nat.zero_le _)
  · constructor
    · have h := autoLoop_counts tr items now s needed 0 0 0
      unfold auto_admission
      omega
    · unfold auto_admission
      exact autoLoop_added_le tr items now s needed 0 0 0 (Nat.zero_le _)

lemma add_news_titlesNodup (now : Nat) (s : Store) (t su u n : String)
    (h : titlesNodup s) : titlesNodup (add_news now s t su u n).1 := by
  unfold add_news
  by_cases hc : s.any (fun r => r.title == t)
  · rw [if_pos hc]
    exact h
  · rw [if_neg hc]
    unfold titlesNodup at h ⊢
    rw [List.map_append]
    rw [List.nodup_append]
    refine ⟨h, List.nodup_singleton _, ?_⟩
    intro x hx hxt
    have hxt' : x = t := by simpa using hxt
    rcases List.mem_map.mp hx with ⟨r, hr, hrt⟩
    apply hc
    refine List.any_eq_true.mpr ⟨r, hr, ?_⟩
    simp [hrt, hxt']

/-- Claim C3: starting from a store with pairwise-distinct titles, any
sequence of `add_news` calls preserves title uniqueness — the membership
guard (the UNIQUE constraint) rejects a duplicate title, so no two stored
rows ever share a title. -/
theorem C3_title_uniqueness (reqs : List AddReq) (s : Store) (h : titlesNodup s) :
    titlesNodup (applyAdds reqs s) := by
  induction reqs generalizing s with
  | nil => exact h
  | cons q rest ih =>
    exact ih _ (add_news_titlesNodup q.now s q.title q.summary_ru q.source_url
      q.source_name h)

/-- A concrete admission request. -/
def reqX : AddReq :=
  { now := 0, title := "X", summary_ru := "s", source_url := "u", source_name := "n" }

/-- Witness for C3: submitting the same title twice to the empty store. -/
theorem C3_witness :
    titlesNodup ([] : Store) ∧ titlesNodup (applyAdds [reqX, reqX] []) :=
  ⟨by decide, C3_title_uniqueness [reqX, reqX] [] (by decide)⟩

/-- Claim C4 counterexample: the scheduler's exhaustive mode discards the
return value of `add_news`.  Here the existence check ran against an empty
store, a concurrent caller then claimed the title "T", so `add_news`
returns `False` (`insertResult = some false`) — and `added` is still
incremented from 0 to 1, so the failed insert IS counted. -/
theorem C4_counterexample :
    (autoStep (fun t => t) 5 [] [rowT] 3 0 0 itemT).insertResult = some false
    ∧ (autoStep (fun t => t) 5 [] [rowT] 3 0 0 itemT).added = 1 := by
  exact ⟨rfl, rfl⟩

/-- Claim C4 (amended): a candidate whose `add_news` returns `False` is not
counted in `addedCount` in manual mode; in exhaustive mode the scheduler
ignores the `add_news` return value and increments `addedCount` for every
attempted insert, failed or not. -/
theorem C4_failed_insert_counting (tr : String → String) (now : Nat)
    (s sChk sIns : Store) (maxToAdd added needed a d : Nat) (b : Bool)
    (it : NewsItem) :
    ((manualStep tr now s maxToAdd added it).insertResult = some false →
      (manualStep tr now s maxToAdd added it).added = added)
    ∧ ((autoStep tr now sChk sIns needed a d it).insertResult = some b →
      (autoStep tr now sChk sIns needed a d it).added = a + 1) := by
  constructor
  · intro h
    unfold manualStep at h ⊢
    by_cases hc : maxToAdd ≤ added
    · rw [if_pos hc]
    · rw [if_neg hc] at h ⊢
      simp only [Option.some.injEq] at h
      simp [h]
  · intro h
    unfold autoStep at h ⊢
    by_cases hc : check_if_exists sChk it.title
    · rw [if_pos hc] at h
      cases h
    · rw [if_neg hc] at h ⊢
      by_cases ha : a < needed
      · rw [if_pos ha]
      · rw [if_neg ha] at h
        cases h

/-- Witness for C4: a failed insert in manual mode leaves `added` at 0; the
raced failed insert of `C4_counterexample`'s shape still bumps `added`. -/
theorem C4_witness :
    (manualStep (fun t => t) 5 [rowT] 3 0 itemT).added = 0
    ∧ (autoStep (fun t => t) 6 [] [rowT] 3 0 0 itemT).added = 0 + 1 :=
  ⟨(C4_failed_insert_counting (fun t => t) 5 [rowT] [] [] 3 0 0 0 0 false itemT).1
     (by decide),
   (C4_failed_insert_counting (fun t => t) 6 [] [] [rowT] 3 0 3 0 0 false itemT).2
     (by decide)⟩

/-- Claim C5 counterexample: manual mode has no duplicate pre-check.  With
the title "T" already stored, `api_parse_news`'s loop still calls the
translator (`translated = true`) and attempts the insert, which fails
(`insertResult = some false`) — contradicting the claim for manual mode. -/
theorem C5_counterexample :
    check_if_exists [rowT] itemT.title = true
    ∧ (manualStep (fun t => t) 7 [rowT] 3 0 itemT).translated = true
    ∧ (manualStep (fun t => t) 7 [rowT] 3 0 itemT).insertResult = some false := by
  exact ⟨rfl, rfl, rfl⟩

/-- Claim C5 (amended): in exhaustive mode, a candidate whose title exists
increments `duplicateCount` and is neither translated nor inserted; in
manual mode there is no pre-check — a duplicate candidate within capacity
is translated and an insert is attempted (and fails), though it is still
not counted as added. -/
theorem C5_duplicate_handling (tr : String → String) (now : Nat)
    (sChk sIns s : Store) (needed a d maxToAdd added : Nat) (it : NewsItem) :
    (check_if_exists sChk it.title = true →
      autoStep tr now sChk sIns needed a d it
        = { store := sIns, added := a, dups := d + 1, insertResult := none,
            translated := false, skippedCap := false })
    ∧ (check_if_exists s it.title = true → added < maxToAdd →
      (manualStep tr now s maxToAdd added it).translated = true
      ∧ (manualStep tr now s maxToAdd added it).insertResult = some false
      ∧ (manualStep tr now s maxToAdd added it).added = added) := by
  constructor
  · intro h
    unfold autoStep
    rw [if_pos h]
  · intro h hlt
    have hnle : ¬ maxToAdd ≤ added := Nat.not_le.mpr hlt
    unfold manualStep
    rw [if_neg hnle]
    unfold check_if_exists at h
    simp [add_news, h]

/-- Witness for C5 at a store already holding the title "T". -/
theorem C5_witness :
    autoStep (fun t => t) 8 [rowT] [rowT] 3 0 0 itemT
      = { store := [rowT], added := 0, dups := 1, insertResult := none,
          translated := false, skippedCap := false }
    ∧ ((manualStep (fun t => t) 8 [rowT] 3 0 itemT).translated = true
        ∧ (manualStep (fun t => t) 8 [rowT] 3 0 itemT).insertResult = some false
        ∧ (manualStep (fun t => t) 8 [rowT] 3 0 itemT).added = 0) :=
  ⟨(C5_duplicate_handling (fun t => t) 8 [rowT] [rowT] [rowT] 3 0 0 3 0 itemT).1
     (by decide),
   (C5_duplicate_handling (fun t => t) 8 [rowT] [rowT] [rowT] 3 0 0 3 0 itemT).2
     (by decide) (by decide)⟩

lemma pickNewer_bound (acc : Option NewsRow) (x : NewsRow) :
    ∃ c, pickNewer acc x = some c ∧ x.date ≤ c.date
      ∧ ∀ b, acc = some b → b.date ≤ c.date := by
  cases acc with
  | none =>
    exact ⟨x, rfl, le_refl _, by intro b hb; cases hb⟩
  | some b =>
    by_cases hd : b.date < x.date
    · refine ⟨x, by simp [pickNewer, hd], le_refl _, ?_⟩
      intro b' hb'
      cases hb'
      omega
    · refine ⟨b, by simp [pickNewer, hd], by omega, ?_⟩
      intro b' hb'
      cases hb'
      exact le_refl _

lemma foldl_pickNewer_mem (l : List NewsRow) :
    ∀ acc r, l.foldl pickNewer acc = some r → r ∈ l ∨ acc = some r := by
  induction l with
  | nil =>
    intro acc r h
    exact Or.inr h
  | cons x xs ih =>
    intro acc r h
    rw [List.foldl_cons] at h
    rcases ih (pickNewer acc x) r h with hm | he
    · exact Or.inl (List.mem_cons_of_mem _ hm)
    · cases acc with
      | none =>
        simp only [pickNewer] at he
        cases he
        exact Or.inl (List.mem_cons_self x xs)
      | some b =>
        simp only [pickNewer] at he
        by_cases hd : b.date < x.date
        · rw [if_pos hd] at he
          cases he
          exact Or.inl (List.mem_cons_self x xs)
        · rw [if_neg hd] at he
          exact Or.inr he

lemma foldl_pickNewer_max (l : List NewsRow) :
    ∀ acc r, l.foldl pickNewer acc = some r →
      (∀ x ∈ l, x.date ≤ r.date) ∧ (∀ b, acc = some b → b.date ≤ r.date) := by
  induction l with
  | nil =>
    intro acc r h
    constructor
    · intro x hx
      cases hx
    · intro b hb
      have h' : acc = some r := h
      rw [h'] at hb
      injection hb with hb
      rw [hb]
  | cons x xs ih =>
    intro acc r h
    rw [List.foldl_cons] at h
    obtain ⟨c, hc, hxc, hbc⟩ := pickNewer_bound acc x
    rw [hc] at h
    obtain ⟨hall, hacc⟩ := ih _ r h
    have hcr : c.date ≤ r.date := hacc c rfl
    constructor
    · intro y hy
      rcases List.mem_cons.mp hy with rfl | hy
      · omega
      · exact hall y hy
    · intro b hb
      have := hbc b hb
      omega

lemma foldl_pickNewer_some (l : List NewsRow) :
    ∀ b : NewsRow, ∃ r, l.foldl pickNewer (some b) = some r := by
  induction l with
  | nil =>
    intro b
    exact ⟨b, rfl⟩
  | cons x xs ih =>
    intro b
    rw [List.foldl_cons]
    obtain ⟨c, hc, -, -⟩ := pickNewer_bound (some b) x
    rw [hc]
    exact ih c

lemma get_unsent_news_spec (s : Store) (r : NewsRow) (h : get_unsent_news s = some r) :
    r ∈ s ∧ r.sent_to_telegram = false
      ∧ ∀ x ∈ s, x.sent_to_telegram = false → x.date ≤ r.date := by
  unfold get_unsent_news at h
  rcases foldl_pickNewer_mem _ _ _ h with hm | hm
  · have hmem := List.mem_filter.mp hm
    obtain ⟨hall, -⟩ := foldl_pickNewer_max _ _ _ h
    refine ⟨hmem.1, by simpa using hmem.2, ?_⟩
    intro x hx hxf
    exact hall x (List.mem_filter.mpr ⟨hx, by simp [hxf]⟩)
  · cases hm

lemma get_unsent_news_isSome (s : Store) (h : ∃ x ∈ s, x.sent_to_telegram = false) :
    ∃ r, get_unsent_news s = some r := by
  unfold get_unsent_news
  obtain ⟨x, hx, hxf⟩ := h
  have hmem : x ∈ s.filter (fun r => r.sent_to_telegram = false) :=
    List.mem_filter.mpr ⟨hx, by simp [hxf]⟩
  cases hf : s.filter (fun r => r.sent_to_telegram = false) with
  | nil =>
    rw [hf] at hmem
    cases hmem
  | cons y ys =>
    rw [List.foldl_cons]
    exact foldl_pickNewer_some ys y

/-- Claim C2 (amended): for every store with at least one unsent item, the
publish endpoint selects the NEWEST unsent row — an unsent row of maximal
date (`ORDER BY date DESC LIMIT 1`) — and hands exactly that row to the
publisher. -/
theorem C2_publish_selects_newest_unsent (pub : NewsRow → Bool × String) (s : Store)
    (h : ∃ x ∈ s, x.sent_to_telegram = false) :
    ∃ r, get_unsent_news s = some r
      ∧ r ∈ s ∧ r.sent_to_telegram = false
      ∧ (∀ x ∈ s, x.sent_to_telegram = false → x.date ≤ r.date)
      ∧ (api_send_telegram pub s).2.1 = some r := by
  obtain ⟨r, hr⟩ := get_unsent_news_isSome s h
  obtain ⟨hmem, hunsent, hmax⟩ := get_unsent_news_spec s r hr
  refine ⟨r, hr, hmem, hunsent, hmax, ?_⟩
  unfold api_send_telegram
  rw [hr]
  by_cases hp : (pub r).1 = true
  · simp [hp]
  · simp [hp]

/-- Witness for C2 at the concrete two-row store. -/
theorem C2_witness :
    (∃ x ∈ storeAB, x.sent_to_telegram = false)
    ∧ ∃ r, get_unsent_news storeAB = some r
        ∧ r ∈ storeAB ∧ r.sent_to_telegram = false
        ∧ (∀ x ∈ storeAB, x.sent_to_telegram = false → x.date ≤ r.date)
        ∧ (api_send_telegram pubFail storeAB).2.1 = some r :=
  ⟨by decide, C2_publish_selects_newest_unsent pubFail storeAB (by decide)⟩

/-- Claim C2 counterexample: the handed row is NOT the oldest unsent row.
In `storeAB`, `rowA` (date 0) is unsent and strictly older than `rowB`
(date 1), yet the publish endpoint hands `rowB`. -/
theorem C2_counterexample :
    (api_send_telegram pubFail storeAB).2.1 = some rowB
    ∧ rowA ∈ storeAB ∧ rowA.sent_to_telegram = false ∧ rowA.date < rowB.date := by
  refine ⟨by decide, by decide, rfl, by decide⟩

/-- Claim C6 (amended): an adapter that throws or times out (its `try` body
raises) is recorded as `offline` with count 0, the run still completes, and
the items and per-source entries of the other adapters depend only on their
own results; an adapter that completes normally with no extracted items is
recorded as `online` with count 0, not `offline`. -/
theorem C6_orchestrator_isolation (join : String → String → String)
    (content : String → String) (e : Unit) (tv vb : List NewsItem × Bool) :
    (scrape_all_sources (scrape_techcrunch join content (Except.error e)) tv vb).sources
      = [("TechCrunch", { count := 0, status := "offline" }),
         ("The Verge", sourceStatOf tv), ("VentureBeat", sourceStatOf vb)]
    ∧ (scrape_all_sources (scrape_techcrunch join content (Except.error e)) tv vb).items
      = tv.1 ++ vb.1
    ∧ ∀ tc₁ tc₂ : List NewsItem × Bool,
        (scrape_all_sources tc₁ tv vb).sources.drop 1
          = (scrape_all_sources tc₂ tv vb).sources.drop 1 :=
  ⟨rfl, rfl, fun _ _ => rfl⟩

/-- Claim C6 counterexample: an adapter that finds no matching content
WITHOUT raising — here the TechCrunch page yields one article element in
which no title selector matches — completes with zero items and is recorded
as `online` with count 0, not `offline` as the claim requires. -/
theorem C6_counterexample :
    scrape_techcrunch joinEx contentEx (Except.ok [noTitleArticle]) = ([], true)
    ∧ (scrape_all_sources (scrape_techcrunch joinEx contentEx (Except.ok [noTitleArticle]))
        ([], true) ([], true)).sources
      = [("TechCrunch", { count := 0, status := "online" }),
         ("The Verge", { count := 0, status := "online" }),
         ("VentureBeat", { count := 0, status := "online" })] := by
  exact ⟨rfl, rfl⟩

lemma foldl_max_ge_init (l : Store) :
    ∀ init : Nat, init ≤ l.foldl (fun m r => max m r.id) init := by
  induction l with
  | nil =>
    intro init
    exact le_refl _
  | cons x xs ih =>
    intro init
    rw [List.foldl_cons]
    exact le_trans (le_max_left _ _) (ih _)

lemma mem_id_lt_freshId (s : Store) (r : NewsRow) (hr : r ∈ s) : r.id < freshId s := by
  unfold freshId
  have : ∀ init : Nat, r.id ≤ s.foldl (fun m x => max m x.id) init := by
    induction s with
    | nil => cases hr
    | cons x xs ih =>
      intro init
      rw [List.foldl_cons]
      rcases List.mem_cons.mp hr with rfl | hr'
      · exact le_trans (le_max_right _ _) (foldl_max_ge_init xs _)
      · exact ih hr' _
  exact Nat.lt_succ_of_le (this 0)

lemma idSent_add (now : Nat) (s : Store) (t su u n : String) (i : Nat)
    (h : idSent s i) : idSent (add_news now s t su u n).1 i := by
  unfold add_news
  by_cases hc : s.any (fun r => r.title == t)
  · rw [if_pos hc]
    exact h
  · rw [if_neg hc]
    obtain ⟨⟨r0, hr0, hid0⟩, hall⟩ := h
    constructor
    · exact ⟨r0, List.mem_append_left _ hr0, hid0⟩
    · intro r hr hid
      rcases List.mem_append.mp hr with hr | hr
      · exact hall r hr hid
      · exfalso
        simp only [List.mem_singleton] at hr
        subst hr
        have hlt : r0.id < freshId s := mem_id_lt_freshId s r0 hr0
        simp only at hid
        omega

lemma idSent_mark (s : Store) (j i : Nat) (h : idSent s i) :
    idSent (mark_as_sent s j) i := by
  obtain ⟨⟨r0, hr0, hid0⟩, hall⟩ := h
  constructor
  · refine ⟨if r0.id = j then { r0 with sent_to_telegram := true } else r0, ?_, ?_⟩
    · unfold mark_as_sent
      exact List.mem_map.mpr ⟨r0, hr0, rfl⟩
    · by_cases hj : r0.id = j
      · rw [if_pos hj]
        exact hid0
      · rw [if_neg hj]
        exact hid0
  · intro r hr hid
    unfold mark_as_sent at hr
    rcases List.mem_map.mp hr with ⟨r1, hr1, rfl⟩
    by_cases hj : r1.id = j
    · simp [hj]
    · rw [if_neg hj] at hid ⊢
      exact hall r1 hr1 hid

lemma idSent_publish (pub : NewsRow → Bool × String) (s : Store) (i : Nat)
    (h : idSent s i) : idSent (api_send_telegram pub s).1 i := by
  unfold api_send_telegram
  cases hg : get_unsent_news s with
  | none =>
    exact h
  | some news =>
    by_cases hp : (pub news).1 = true
    · simp only [hp, if_true]
      exact idSent_mark s news.id i h
    · simp only [hp, if_false]
      exact h

lemma idSent_applyOps (ops : List RepoOp) (s : Store) (i : Nat) (h : idSent s i) :
    idSent (applyOps ops s) i := by
  induction ops generalizing s with
  | nil => exact h
  | cons op rest ih =>
    cases op with
    | add now t su u n => exact ih _ (idSent_add now s t su u n i h)
    | markSent j => exact ih _ (idSent_mark s j i h)
    | publish pub => exact ih _ (idSent_publish pub s i h)

/-- Claim C7: if the publisher fails on the selected unsent row X, the
store is returned unchanged (X stays unsent, no row modified); if it
succeeds, exactly X's id is marked sent and from then on every row with
that id is sent and stays sent under any further pipeline operations
(inserts, mark-sent, publishes); moreover only unsent rows are ever handed
to the publisher, so the flag is set by that path exactly once. -/
theorem C7_publish_error_handling (pub : NewsRow → Bool × String) (s : Store)
    (X : NewsRow) (ops : List RepoOp) :
    (get_unsent_news s = some X → (pub X).1 = false →
      api_send_telegram pub s = (s, some X, false))
    ∧ (get_unsent_news s = some X → (pub X).1 = true →
      api_send_telegram pub s = (mark_as_sent s X.id, some X, true)
      ∧ idSent (mark_as_sent s X.id) X.id)
    ∧ (∀ n, (api_send_telegram pub s).2.1 = some n → n.sent_to_telegram = false)
    ∧ (∀ i, idSent s i → idSent (applyOps ops s) i) := by
  refine ⟨?_, ?_, ?_, fun i => idSent_applyOps ops s i⟩
  · intro hg hp
    unfold api_send_telegram
    rw [hg]
    simp [hp]
  · intro hg hp
    obtain ⟨hmem, -, -⟩ := get_unsent_news_spec s X hg
    constructor
    · unfold api_send_telegram
      rw [hg]
      simp [hp]
    · constructor
      · refine ⟨if X.id = X.id then { X with sent_to_telegram := true } else X, ?_, ?_⟩
        · unfold mark_as_sent
          exact List.mem_map.mpr ⟨X, hmem, rfl⟩
        · simp
      · exact mark_as_sent_sets s X.id
  · intro n hn
    cases hg : get_unsent_news s with
    | none =>
      unfold api_send_telegram at hn
      rw [hg] at hn
      cases hn
    | some news =>
      obtain ⟨-, hunsent, -⟩ := get_unsent_news_spec s news hg
      unfold api_send_telegram at hn
      rw [hg] at hn
      by_cases hp : (pub news).1 = true
      · simp only [hp, if_true] at hn
        injection hn with hn
        rw [← hn]
        exact hunsent
      · simp only [hp, if_false] at hn
        injection hn with hn
        rw [← hn]
        exact hunsent

/-- Witness for C7 at the concrete two-row store: a failing then a
succeeding publisher on the newest unsent row `rowB`, the handed row is
unsent, and sent-ness of row 1 of a one-row store survives a further
mark-sent operation. -/
theorem C7_witness :
    api_send_telegram pubFail storeAB = (storeAB, some rowB, false)
    ∧ (api_send_telegram pubOk storeAB = (mark_as_sent storeAB rowB.id, some rowB, true)
        ∧ idSent (mark_as_sent storeAB rowB.id) rowB.id)
    ∧ rowB.sent_to_telegram = false
    ∧ idSent (applyOps [RepoOp.markSent 1] [rowSent]) 1 :=
  ⟨(C7_publish_error_handling pubFail storeAB rowB []).1 (by decide) (by decide),
   (C7_publish_error_handling pubOk storeAB rowB []).2.1 (by decide) (by decide),
   (C7_publish_error_handling pubFail storeAB rowB []).2.2.1 rowB (by decide),
   (C7_publish_error_handling pubOk [rowSent] rowB [RepoOp.markSent 1]).2.2.2 1 (by decide)⟩

end NewsBot
